import Mathlib

/-!
Verification of the `c_class` runtime object model.

The repository implements a class-like reflective object model in C:
tagged scalar values (`MemberData`), named typed data slots (`Member`),
kinded invocables (`Function`), and the aggregate `Class` with a member
table, a function table, an optional constructor and an optional
destructor.  The development below is a shallow embedding of the final
iteration of the code (the portion of `src/unnamed/part_001` holding
`function_invoke`, `class_create`, `class_destroy`,
`class_invoke_function`, `class_add_member`, `class_add_function`,
`class_get_member`, `class_get_function` and the `Vec2` test driver),
which is the consolidated design the accompanying specification
describes; the other source files are earlier drafts of the same model.

Modelling conventions:
* C pointers that may be `NULL` become `Option`; a `none` argument is a
  null handle.
* `size_t` quantities become `Nat`; the one place the code performs a
  wrapping `size_t` subtraction (`index > num_functions - 1` in
  `class_invoke_function`) is modelled explicitly by `size_sub_one`.
* The `MemberData` union becomes a sum type.  The `f32`/`f64` payloads
  are carried as exact rationals: every floating-point computation the
  repository performs (`vec2_add` on small integral values) is exact in
  IEEE-754, so rational arithmetic coincides with it.
* Function pointers are identifiers drawn from closed enumerations of
  the callables defined in the repository.  Every unary callable in the
  repository (`vec2_ctor`, `vec2_dtor`, `test_class_ctor`,
  `my_class_method`) only prints or does nothing, so a unary call
  contributes a trace event and no state change.  The only binary
  callable is `vec2_add`; its body performs no nested binary
  invocation (its `create_vec2` call dispatches only the unary
  constructor), so a one-level interpreter `evalBin` is exact.
* Operations return an explicit trace (`List Event`) of the calls they
  dispatch and the releases they perform, so that invocation-order and
  release-order properties are statements about that trace.
* `malloc` for the instance and the initial tables is modelled as
  succeeding (the claims under scrutiny concern successfully created
  classes); the single `realloc` in each append routine is given an
  explicit success oracle `allocOk`, because the append claims speak
  about its failure behaviour.
* `DEBUG_BREAK` expands to `__debugbreak()` and execution continues to
  the `return` that follows it; the specification treats it as a
  debug-only trap, so it is modelled as a no-op.
* Contents of uninitialized memory are modelled by the fixed junk
  values `junkMember` / `junkFunction`; no theorem relies on them.
-/

namespace CClass

/-- the `MemberType` enumeration of `part_001`. -/
inductive MemberType where
  | MEMBER_TYPE_F32
  | MEMBER_TYPE_F64
  | MEMBER_TYPE_I32
  | MEMBER_TYPE_U32
deriving DecidableEq

/-- the `MemberData` union: one scalar payload, interpreted through the
type tag held by the owning `Member`.  Constructor names follow the
union's field names.  Reading a field other than the one last written
(a union pun) never happens in the repository and is not modelled. -/
inductive MemberData where
  | f_data (x : ℚ)
  | d_data (x : ℚ)
  | i_data (x : ℤ)
  | u_data (x : ℕ)
deriving DecidableEq

/-- the `Member` struct: `{ MemberData data; char* name; MemberType type; }`.
`name` is `none` when the `char*` is null or was never assigned. -/
structure Member where
  data : MemberData
  name : Option String
  type : MemberType
deriving DecidableEq

/-- the unary callables (`void (*)(const Class*)`) defined in the
repository; all of them only print or do nothing. -/
inductive UnaryFn where
  | vec2_ctor
  | vec2_dtor
  | test_class_ctor
  | my_class_method
deriving DecidableEq

/-- the binary callables (`Class* (*)(const Class*, const Class*)`)
defined in the repository. -/
inductive BinaryFn where
  | vec2_add
deriving DecidableEq

/-- the `FunctionType` enumeration of `part_001`. -/
inductive FunctionType where
  | FUNCTION_TYPE_CONSTRUCTOR
  | FUNCTION_TYPE_DESTRUCTOR
  | FUNCTION_TYPE_MEMBER_FUNCTION
deriving DecidableEq

/-- the `Function` struct: `{ char* name; FunctionType type; fn; binary_member_fn; }`.
`fn = none` / `binary_member_fn = none` model a null or never-assigned
function pointer. -/
structure Function where
  name : Option String
  type : FunctionType
  fn : Option UnaryFn
  binary_member_fn : Option BinaryFn
deriving DecidableEq

/-- the `Class` struct of the final iteration.  `members = none` models a
null member-array pointer (`num_members` is stored separately, exactly as
in the C struct); likewise for `functions`. -/
structure Class where
  name : Option String
  ctor : Option Function
  dtor : Option Function
  members : Option (List Member)
  num_members : Nat
  functions : Option (List Function)
  num_functions : Nat
deriving DecidableEq

/-- the `ClassCreateInfo` creation descriptor. -/
structure ClassCreateInfo where
  name : Option String
  ctor : Option Function
  dtor : Option Function
  members : Option (List Member)
  num_members : Nat
  functions : Option (List Function)
  num_functions : Nat
deriving DecidableEq

/-- trace events: the calls dispatched through function pointers and the
releases performed by `class_destroy`.  `undefCall` marks a call through
a null or unset function pointer (undefined behaviour in the source). -/
inductive Event where
  | callUnary (f : Function) (self : Class)
  | callBinary (f : Function) (self other : Class)
  | undefCall
  | freeCtor
  | freeDtor
  | freeMembers
  | freeFunctions
  | freeInstance
deriving DecidableEq

/-- stands for the contents of uninitialized `Member` memory; never
relied upon by any theorem. -/
def junkMember : Member :=
  { data := MemberData.i_data 0, name := none, type := MemberType.MEMBER_TYPE_I32 }

/-- stands for the contents of uninitialized `Function` memory; never
relied upon by any theorem. -/
def junkFunction : Function :=
  { name := none, type := FunctionType.FUNCTION_TYPE_MEMBER_FUNCTION,
    fn := none, binary_member_fn := none }

/-- `member_get_name`: null member yields the null pointer (`none`). -/
def member_get_name : Option Member → Option String
  | none => none
  | some m => m.name

/-- `member_get_type`: null member yields `MEMBER_TYPE_I32`. -/
def member_get_type : Option Member → MemberType
  | none => MemberType.MEMBER_TYPE_I32
  | some m => m.type

/-- `member_get_data`: on a null member the source hits `DEBUG_BREAK` and
then dereferences the null pointer (undefined behaviour, modelled as a
junk value). -/
def member_get_data : Option Member → MemberData
  | none => junkMember.data
  | some m => m.data

/-- `function_get_name`. -/
def function_get_name : Option Function → Option String
  | none => none
  | some f => f.name

/-- `function_get_type`: null function yields `FUNCTION_TYPE_MEMBER_FUNCTION`. -/
def function_get_type : Option Function → FunctionType
  | none => FunctionType.FUNCTION_TYPE_MEMBER_FUNCTION
  | some f => f.type

/-- a semantics for the binary callables, passed explicitly so that the
operation definitions below can be written before the interpreter for
`vec2_add` (which itself creates a class) is available. -/
abbrev BinSem := BinaryFn → Class → Class → Option Class × List Event

/-- models the indirect call `function->fn(klass)`: all unary callables
in the repository only print or do nothing, so the call contributes one
trace event and no state change.  An unset pointer would be an undefined
call. -/
def unary_call (f : Function) (self : Class) : List Event :=
  match f.fn with
  | some _ => [Event.callUnary f self]
  | none => [Event.undefCall]

/-- `function_invoke`, parametric in the binary-callable semantics.  The
source switches on `function_get_type(function)`, which here (the
function is non-null) is `f.type`. -/
def function_invoke_g (evalB : BinSem) (function : Option Function)
    (klass other : Option Class) : Option Class × List Event :=
  match function, klass with
  | none, _ => (none, [])
  | some _, none => (none, [])
  | some f, some k =>
    match f.type with
    | FunctionType.FUNCTION_TYPE_CONSTRUCTOR => (none, unary_call f k)
    | FunctionType.FUNCTION_TYPE_DESTRUCTOR => (none, unary_call f k)
    | FunctionType.FUNCTION_TYPE_MEMBER_FUNCTION =>
      match other with
      | none => (none, unary_call f k)
      | some o =>
        match f.binary_member_fn with
        | some b =>
          let r := evalB b k o
          (r.1, Event.callBinary f k o :: r.2)
        | none => (none, [Event.undefCall])

/-- `class_get_num_members`: zero for a null handle. -/
def class_get_num_members : Option Class → Nat
  | none => 0
  | some k => k.num_members

/-- `class_get_num_functions`: zero for a null handle. -/
def class_get_num_functions : Option Class → Nat
  | none => 0
  | some k => k.num_functions

/-- `class_get_member`: null handle or out-of-bounds index yields the
null pointer.  The C routine returns a pointer into the member array;
the model returns the member value stored there.  (With a null member
array and a nonzero stored count the source would compute a wild
pointer; the junk default stands for that, and no class built by the
code under valid use reaches it.) -/
def class_get_member (klass : Option Class) (index : Nat) : Option Member :=
  match klass with
  | none => none
  | some k =>
    if index < class_get_num_members (some k) then
      some ((k.members.getD []).getD index junkMember)
    else
      none

/-- `class_get_function`: same contract as `class_get_member`. -/
def class_get_function (klass : Option Class) (index : Nat) : Option Function :=
  match klass with
  | none => none
  | some k =>
    if index < class_get_num_functions (some k) then
      some ((k.functions.getD []).getD index junkFunction)
    else
      none

/-- `class_get_name`: null handle yields the null pointer. -/
def class_get_name : Option Class → Option String
  | none => none
  | some k => k.name

/-- `class_has_constructor`: the C routine returns the `int` `1`/`0`
value of `klass->ctor != NULL`, modelled as a `Bool`. -/
def class_has_constructor : Option Class → Bool
  | none => false
  | some k => k.ctor.isSome

/-- `class_has_destructor`. -/
def class_has_destructor : Option Class → Bool
  | none => false
  | some k => k.dtor.isSome

/-- `class_get_constructor`. -/
def class_get_constructor : Option Class → Option Function
  | none => none
  | some k => k.ctor

/-- `class_get_destructor`. -/
def class_get_destructor : Option Class → Option Function
  | none => none
  | some k => k.dtor

/-- the element-wise copy of the descriptor's member array performed by
`class_create` (`member->name = other->name; member->type = other->type;
member->data = other->data;` for each index below `num_members`).
Reading past the descriptor array (a malformed descriptor) yields junk. -/
def copy_members (ci : ClassCreateInfo) : List Member :=
  (List.range ci.num_members).map fun i =>
    let other := (ci.members.getD []).getD i junkMember
    { name := other.name, type := other.type, data := other.data }

/-- the element-wise copy of the descriptor's function array performed by
`class_create` (all four fields are copied). -/
def copy_functions (ci : ClassCreateInfo) : List Function :=
  (List.range ci.num_functions).map fun i =>
    let other := (ci.functions.getD []).getD i junkFunction
    { fn := other.fn, binary_member_fn := other.binary_member_fn,
      name := other.name, type := other.type }

/-- the freshly `malloc`ed constructor slot filled by `class_create`:
only `fn` and `name` are copied; `type` and `binary_member_fn` are left
uninitialized in the source (the junk placeholders below) and are
respectively overwritten before, and never read at, the dispatch. -/
def built_ctor (f : Function) : Function :=
  { name := f.name, type := junkFunction.type, fn := f.fn,
    binary_member_fn := junkFunction.binary_member_fn }

/-- the freshly `malloc`ed destructor slot filled by `class_create`; the
same two fields are copied as for the constructor slot. -/
def built_dtor (f : Function) : Function :=
  { name := f.name, type := junkFunction.type, fn := f.fn,
    binary_member_fn := junkFunction.binary_member_fn }

/-- `class_create`, parametric in the binary-callable semantics.  The
aggregate is allocated, the name and the optional ctor/dtor slots are
installed, the member and function arrays are copied element-wise into
fresh storage, and then, if a constructor is present, its `type` field
is forced to `FUNCTION_TYPE_CONSTRUCTOR` and it is dispatched through
`function_invoke` with the new instance as sole argument (the dispatch
result is discarded).  All allocations are modelled as succeeding. -/
def class_create_g (evalB : BinSem) (ci : ClassCreateInfo) :
    Option Class × List Event :=
  let klass0 : Class :=
    { name := ci.name
      ctor := ci.ctor.map built_ctor
      dtor := ci.dtor.map built_dtor
      members := some (copy_members ci)
      num_members := ci.num_members
      functions := some (copy_functions ci)
      num_functions := ci.num_functions }
  if class_has_constructor (some klass0) then
    let klass1 := { klass0 with
      ctor := klass0.ctor.map fun c =>
        { c with type := FunctionType.FUNCTION_TYPE_CONSTRUCTOR } }
    (some klass1, (function_invoke_g evalB klass1.ctor (some klass1) none).2)
  else
    (some klass0, [])

/-- `class_destroy`, parametric in the binary-callable semantics.  In
source order: a null handle is a no-op (after `DEBUG_BREAK`); the ctor
slot is freed if present; if a destructor is present its `type` field is
forced to `FUNCTION_TYPE_DESTRUCTOR` in place, it is dispatched through
`function_invoke` with the instance as argument, and its slot is freed;
then the member storage (if the count is nonzero), the function storage
(if the count is nonzero) and the instance itself are freed, in that
order. -/
def class_destroy_g (evalB : BinSem) (klass : Option Class) : List Event :=
  match klass with
  | none => []
  | some k =>
    let ctor_events := if class_has_constructor (some k) then [Event.freeCtor] else []
    let dtor_events :=
      if class_has_destructor (some k) then
        let d := { k.dtor.getD junkFunction with
          type := FunctionType.FUNCTION_TYPE_DESTRUCTOR }
        let k1 := { k with dtor := some d }
        (function_invoke_g evalB (some d) (some k1) none).2 ++ [Event.freeDtor]
      else []
    let member_events :=
      if class_get_num_members (some k) > 0 then [Event.freeMembers] else []
    let function_events :=
      if class_get_num_functions (some k) > 0 then [Event.freeFunctions] else []
    ctor_events ++ dtor_events ++ member_events ++ function_events
      ++ [Event.freeInstance]

/-- the wrapping `size_t` subtraction `n - 1` used by the bounds check of
`class_invoke_function`: for `n = 0` it produces `SIZE_MAX`. -/
def size_sub_one (n : Nat) : Nat :=
  if n = 0 then 2 ^ 64 - 1 else n - 1

/-- `class_invoke_function(klass, other, index)`, parametric in the
binary-callable semantics: null handle yields null; the bounds check is
the source's `index > num_functions - 1` on `size_t`; otherwise the
function is resolved with `class_get_function` and dispatched through
`function_invoke`. -/
def class_invoke_function_g (evalB : BinSem) (klass other : Option Class)
    (index : Nat) : Option Class × List Event :=
  match klass with
  | none => (none, [])
  | some k =>
    if index > size_sub_one (class_get_num_functions (some k)) then
      (none, [])
    else
      function_invoke_g evalB (class_get_function (some k) index) (some k) other

/-- the contents of a block of `n` elements obtained by `realloc` from
`old`: the preserved prefix, then uninitialized slots. -/
def alloc_block {α : Type} (old : List α) (n : Nat) (junk : α) : List α :=
  old.take n ++ List.replicate (n - old.length) junk

/-- `class_add_member`.  A null class or a null member is rejected
(after `DEBUG_BREAK`) with the table untouched.  Otherwise the member
array is grown by exactly one slot with `realloc`; `allocOk` is the
oracle for that single allocation.  On `realloc` failure the source
overwrites `klass->members` with the null result and returns with the
count unchanged; on success the count is incremented and the new last
slot is assigned `*member`. -/
def class_add_member (klass : Option Class) (member : Option Member)
    (allocOk : Bool) : Option Class :=
  match klass with
  | none => none
  | some k =>
    match member with
    | none => some k
    | some m =>
      if allocOk then
        some { k with
          members := some (alloc_block (k.members.getD []) k.num_members junkMember ++ [m])
          num_members := k.num_members + 1 }
      else
        some { k with members := none }

/-- `class_add_function`: same append and growth semantics applied to
the function table. -/
def class_add_function (klass : Option Class) (function : Option Function)
    (allocOk : Bool) : Option Class :=
  match klass with
  | none => none
  | some k =>
    match function with
    | none => some k
    | some f =>
      if allocOk then
        some { k with
          functions := some (alloc_block (k.functions.getD []) k.num_functions junkFunction ++ [f])
          num_functions := k.num_functions + 1 }
      else
        some { k with functions := none }

def str_x : String := "x"

def str_y : String := "y"

def str_vec2 : String := "Vec2"

def str_vec2_ctor : String := "vec2_ctor"

def str_vec2_dtor : String := "vec2_dtor"

def str_vec2_add : String := "vec2_add"

/-- reads `c->members[i].data.f_data`.  All such reads in the repository
hit a slot whose last write was to `f_data`; a union reinterpretation of
another payload never occurs and is modelled by `0`. -/
def f32_at (c : Class) (i : Nat) : ℚ :=
  match ((c.members.getD []).getD i junkMember).data with
  | MemberData.f_data q => q
  | _ => 0

/-- `create_vec2(x, y)`: stack-builds the ctor and dtor records (only
`fn` and `name` assigned; `type` and `binary_member_fn` stay
uninitialized, modelled by the junk placeholders), the two `f32` members
`x` and `y` (their `type` field is assigned by the loop that follows
their initialization), and the `add` member function (binary form only;
`fn` stays unassigned), then calls `class_create`. -/
def create_vec2_g (evalB : BinSem) (x y : ℚ) : Option Class × List Event :=
  let ctor : Function :=
    { name := some str_vec2_ctor, type := junkFunction.type,
      fn := some UnaryFn.vec2_ctor, binary_member_fn := junkFunction.binary_member_fn }
  let dtor : Function :=
    { name := some str_vec2_dtor, type := junkFunction.type,
      fn := some UnaryFn.vec2_dtor, binary_member_fn := junkFunction.binary_member_fn }
  let x_member : Member :=
    { name := some str_x, data := MemberData.f_data x, type := junkMember.type }
  let y_member : Member :=
    { name := some str_y, data := MemberData.f_data y, type := junkMember.type }
  let members := [x_member, y_member].map fun m =>
    { m with type := MemberType.MEMBER_TYPE_F32 }
  let add_fn : Function :=
    { name := some str_vec2_add, type := FunctionType.FUNCTION_TYPE_MEMBER_FUNCTION,
      fn := junkFunction.fn, binary_member_fn := some BinaryFn.vec2_add }
  let createInfo : ClassCreateInfo :=
    { name := some str_vec2, ctor := some ctor, dtor := some dtor,
      members := some members, num_members := 2,
      functions := some [add_fn], num_functions := 1 }
  class_create_g evalB createInfo

/-- `vec2_add(lhs, rhs)`: creates a fresh `Vec2` instance via
`create_vec2(0, 0)` and overwrites its two member slots with the
componentwise sums read from `lhs` and `rhs`.  The source does not
null-check the `create_vec2` result before dereferencing it; in this
model creation always succeeds, so the `none` arm is unreachable. -/
def vec2_add_g (evalB : BinSem) (lhs rhs : Class) : Option Class × List Event :=
  let r := create_vec2_g evalB 0 0
  match r.1 with
  | none => (none, r.2)
  | some result =>
    let s0 := result.members.getD []
    let m0 := s0.getD 0 junkMember
    let s1 := s0.set 0 { m0 with data := MemberData.f_data (f32_at lhs 0 + f32_at rhs 0) }
    let m1 := s1.getD 1 junkMember
    let s2 := s1.set 1 { m1 with data := MemberData.f_data (f32_at lhs 1 + f32_at rhs 1) }
    (some { result with members := some s2 }, r.2)

/-- the vacuous binary semantics used one level down inside `evalBin`;
it is never consulted, because `vec2_add` performs no nested binary
invocation (the only dispatch inside it is the unary constructor call
made by `create_vec2`). -/
def evalBin0 : BinSem := fun _ _ _ => (none, [])

/-- the semantics of the repository's binary callables. -/
def evalBin : BinSem
  | BinaryFn.vec2_add, lhs, rhs => vec2_add_g evalBin0 lhs rhs

/-- `function_invoke` of the final iteration. -/
def function_invoke (function : Option Function) (klass other : Option Class) :
    Option Class × List Event :=
  function_invoke_g evalBin function klass other

/-- `class_create` of the final iteration. -/
def class_create (ci : ClassCreateInfo) : Option Class × List Event :=
  class_create_g evalBin ci

/-- `class_destroy` of the final iteration. -/
def class_destroy (klass : Option Class) : List Event :=
  class_destroy_g evalBin klass

/-- `class_invoke_function` of the final iteration. -/
def class_invoke_function (klass other : Option Class) (index : Nat) :
    Option Class × List Event :=
  class_invoke_function_g evalBin klass other index

/-- `create_vec2` of the final iteration. -/
def create_vec2 (x y : ℚ) : Option Class × List Event :=
  create_vec2_g evalBin x y

/-- `vec2_add` of the final iteration. -/
def vec2_add (lhs rhs : Class) : Option Class × List Event :=
  vec2_add_g evalBin lhs rhs

/-- the instance `a = create_vec2(1, 3)` of `test_vec2_class`. -/
def test_vec2_a : Option Class := (create_vec2 1 3).1

/-- the instance `b = create_vec2(2, 4)` of `test_vec2_class`. -/
def test_vec2_b : Option Class := (create_vec2 2 4).1

/-- the invocation `c = class_invoke_function(a, b, 0)` of
`test_vec2_class`, with its trace. -/
def test_vec2_c : Option Class × List Event :=
  class_invoke_function test_vec2_a test_vec2_b 0

/-- the member payloads of a class, in table order. -/
def member_datas (c : Class) : List MemberData :=
  (c.members.getD []).map Member.data

/-!
Heap model.

The deep-copy/ownership claim about `class_create` is a statement about
aliasing, so for it the member and function arrays are modelled as heap
blocks addressed by `Nat` pointers: `Heap` maps every address to the
block contents, and `next` is the allocation bound (every live block
lives at an address below `next`; `malloc` hands out `next` and bumps
it, so a fresh block never aliases an existing one).  `HClass` and
`HClassCreateInfo` hold the array pointers; the scalar fields and the
ctor/dtor slots are unchanged from the value model above and are
omitted here — the claim under scrutiny is about the two arrays.
-/

/-- the heap of member-array and function-array blocks. -/
structure Heap where
  next : Nat
  member_blocks : Nat → List Member
  function_blocks : Nat → List Function

/-- store to a member-array block. -/
def write_members (h : Heap) (a : Nat) (l : List Member) : Heap :=
  { h with member_blocks := fun x => if x = a then l else h.member_blocks x }

/-- store to a function-array block. -/
def write_functions (h : Heap) (a : Nat) (l : List Function) : Heap :=
  { h with function_blocks := fun x => if x = a then l else h.function_blocks x }

/-- the creation descriptor with its arrays as heap pointers. -/
structure HClassCreateInfo where
  name : Option String
  members : Nat
  num_members : Nat
  functions : Nat
  num_functions : Nat

/-- the class aggregate with its arrays as heap pointers. -/
structure HClass where
  name : Option String
  members : Nat
  num_members : Nat
  functions : Nat
  num_functions : Nat

/-- the array-copying part of `class_create` in the heap model:
`klass->members = malloc(...)` allocates a fresh block, the copy loop
fills it element-wise from the descriptor's block, and likewise for the
function array.  It mirrors `copy_members` / `copy_functions` above. -/
def class_create_heap (h : Heap) (ci : HClassCreateInfo) : Heap × HClass :=
  let a1 := h.next
  let src_m := h.member_blocks ci.members
  let copied_m := (List.range ci.num_members).map fun i =>
    let other := src_m.getD i junkMember
    ({ name := other.name, type := other.type, data := other.data } : Member)
  let h1 := write_members { h with next := h.next + 1 } a1 copied_m
  let a2 := h1.next
  let src_f := h.function_blocks ci.functions
  let copied_f := (List.range ci.num_functions).map fun i =>
    let other := src_f.getD i junkFunction
    ({ fn := other.fn, binary_member_fn := other.binary_member_fn,
       name := other.name, type := other.type } : Function)
  let h2 := write_functions { h1 with next := h1.next + 1 } a2 copied_f
  (h2, { name := ci.name, members := a1, num_members := ci.num_members,
         functions := a2, num_functions := ci.num_functions })

/-- `class_add_member` in the heap model: the `realloc` grows the
class's block (address reuse; contents preserved, one slot appended)
and the count is incremented. -/
def class_add_member_heap (h : Heap) (k : HClass) (m : Member) : Heap × HClass :=
  let old := h.member_blocks k.members
  (write_members h k.members (alloc_block old k.num_members junkMember ++ [m]),
   { k with num_members := k.num_members + 1 })

/-- `class_add_function` in the heap model. -/
def class_add_function_heap (h : Heap) (k : HClass) (f : Function) : Heap × HClass :=
  let old := h.function_blocks k.functions
  (write_functions h k.functions (alloc_block old k.num_functions junkFunction ++ [f]),
   { k with num_functions := k.num_functions + 1 })

/-!
Concrete fixtures used by witnesses and counterexamples.
-/

def str_a : String := "A"

def str_t : String := "T"

def str_ctor : String := "ctor"

def str_dtor : String := "dtor"

/-- a concrete `f32` member. -/
def fix_member : Member :=
  { data := MemberData.f_data 1, name := some str_x,
    type := MemberType.MEMBER_TYPE_F32 }

/-- a second concrete member. -/
def fix_member2 : Member :=
  { data := MemberData.i_data 5, name := some str_y,
    type := MemberType.MEMBER_TYPE_I32 }

/-- a concrete constructor-shaped function record. -/
def fix_ctor : Function :=
  { name := some str_ctor, type := FunctionType.FUNCTION_TYPE_CONSTRUCTOR,
    fn := some UnaryFn.test_class_ctor, binary_member_fn := none }

/-- a concrete destructor-shaped function record. -/
def fix_dtor : Function :=
  { name := some str_dtor, type := FunctionType.FUNCTION_TYPE_DESTRUCTOR,
    fn := some UnaryFn.vec2_dtor, binary_member_fn := none }

/-- a concrete member-function record carrying both call forms. -/
def fix_member_fn : Function :=
  { name := some str_vec2_add, type := FunctionType.FUNCTION_TYPE_MEMBER_FUNCTION,
    fn := some UnaryFn.my_class_method, binary_member_fn := some BinaryFn.vec2_add }

/-- a concrete valid class: one member, one table function, a dtor, no ctor. -/
def fix_class : Class :=
  { name := some str_a, ctor := none, dtor := some fix_dtor,
    members := some [fix_member], num_members := 1,
    functions := some [fix_member_fn], num_functions := 1 }

/-- a concrete valid class with empty tables. -/
def fix_empty_class : Class :=
  { name := some str_t, ctor := none, dtor := none,
    members := some [], num_members := 0,
    functions := some [], num_functions := 0 }

/-- a concrete creation descriptor with a constructor and empty tables. -/
def fix_create_info : ClassCreateInfo :=
  { name := some str_t,
    ctor := some { name := some str_ctor, type := junkFunction.type,
                   fn := some UnaryFn.test_class_ctor, binary_member_fn := none },
    dtor := none, members := some [], num_members := 0,
    functions := some [], num_functions := 0 }

/-- a concrete heap holding the descriptor arrays of `fix_hinfo` at
addresses `0` and `1`. -/
def fix_heap : Heap :=
  { next := 2
    member_blocks := fun a => if a = 0 then [fix_member] else []
    function_blocks := fun a => if a = 1 then [fix_member_fn] else [] }

/-- a concrete heap-model creation descriptor over `fix_heap`. -/
def fix_hinfo : HClassCreateInfo :=
  { name := some str_vec2, members := 0, num_members := 1,
    functions := 1, num_functions := 1 }

def str_empty : String := ""

/-- the constructor slot of `fix_create_info` as it stands inside the
created class at dispatch time: its kind has been forced to
`FUNCTION_TYPE_CONSTRUCTOR`. -/
def fix_forced_ctor : Function :=
  { name := some str_ctor, type := FunctionType.FUNCTION_TYPE_CONSTRUCTOR,
    fn := some UnaryFn.test_class_ctor, binary_member_fn := none }

/-- the class built by `class_create` from `fix_create_info`. -/
def fix_created : Class :=
  { name := some str_t, ctor := some fix_forced_ctor, dtor := none,
    members := some [], num_members := 0,
    functions := some [], num_functions := 0 }

/-!
Theorems.
-/

/-- C1: dispatch rule of `invoke(class, function, other?)`: a function of
kind Constructor or Destructor is dispatched through the unary callable
with the class as sole argument (whatever `other` is supplied, since the
source ignores it on those branches) and no class is returned; a
MemberFunction with no other instance is dispatched through the unary
callable with the class and no class is returned; a MemberFunction with
an other instance is dispatched through the binary callable on
`(class, other)` and the class that callable builds is returned to the
caller. -/
theorem claim_C1_dispatch (f : Function) (k o : Class) (u : UnaryFn) (b : BinaryFn) :
    ((f.type = FunctionType.FUNCTION_TYPE_CONSTRUCTOR ∨
        f.type = FunctionType.FUNCTION_TYPE_DESTRUCTOR) → f.fn = some u →
      ∀ other : Option Class,
        function_invoke (some f) (some k) other = (none, [Event.callUnary f k]))
    ∧ (f.type = FunctionType.FUNCTION_TYPE_MEMBER_FUNCTION → f.fn = some u →
      function_invoke (some f) (some k) none = (none, [Event.callUnary f k]))
    ∧ (f.type = FunctionType.FUNCTION_TYPE_MEMBER_FUNCTION →
        f.binary_member_fn = some b →
      function_invoke (some f) (some k) (some o) =
        ((evalBin b k o).1, Event.callBinary f k o :: (evalBin b k o).2)) := by
  refine ⟨fun ht hu other => ?_, fun ht hu => ?_, fun ht hb => ?_⟩
  · rcases ht with ht | ht <;>
      simp [function_invoke, function_invoke_g, ht, unary_call, hu]
  · simp [function_invoke, function_invoke_g, ht, unary_call, hu]
  · simp [function_invoke, function_invoke_g, ht, hb]

/-- witness for C1 at concrete inputs: a constructor-kind record, a
member-function record dispatched without and with a second instance. -/
theorem claim_C1_dispatch_witness :
    function_invoke (some fix_ctor) (some fix_class) (some fix_empty_class) =
      (none, [Event.callUnary fix_ctor fix_class])
    ∧ function_invoke (some fix_member_fn) (some fix_class) none =
      (none, [Event.callUnary fix_member_fn fix_class])
    ∧ function_invoke (some fix_member_fn) (some fix_class) (some fix_empty_class) =
      ((evalBin BinaryFn.vec2_add fix_class fix_empty_class).1,
        Event.callBinary fix_member_fn fix_class fix_empty_class ::
          (evalBin BinaryFn.vec2_add fix_class fix_empty_class).2) := by
  refine ⟨?_, ?_, ?_⟩
  · exact (claim_C1_dispatch fix_ctor fix_class fix_empty_class
      UnaryFn.test_class_ctor BinaryFn.vec2_add).1 (Or.inl rfl) rfl (some fix_empty_class)
  · exact (claim_C1_dispatch fix_member_fn fix_class fix_empty_class
      UnaryFn.my_class_method BinaryFn.vec2_add).2.1 rfl rfl
  · exact (claim_C1_dispatch fix_member_fn fix_class fix_empty_class
      UnaryFn.my_class_method BinaryFn.vec2_add).2.2 rfl rfl

/-- C5: bounds — for every class and every index at or beyond the
relevant count, `get_member` and `get_function` return the null
sentinel, and `invoke_by_index` returns the null sentinel and dispatches
nothing; the statement covers the empty function table (count zero, any
index), where the source's wrapping `size_t` bounds check passes but the
out-of-bounds `get_function` still yields null and `function_invoke`
rejects the null function. -/
theorem claim_C5_bounds (k : Class) (i : Nat) (other : Option Class) :
    (class_get_num_members (some k) ≤ i → class_get_member (some k) i = none)
    ∧ (class_get_num_functions (some k) ≤ i → class_get_function (some k) i = none)
    ∧ (class_get_num_functions (some k) ≤ i →
        class_invoke_function (some k) other i = (none, [])) := by
  have hgm : class_get_num_members (some k) ≤ i → class_get_member (some k) i = none := by
    intro h
    simp only [class_get_member, class_get_num_members] at *
    rw [if_neg (Nat.not_lt.2 h)]
  have hgf : class_get_num_functions (some k) ≤ i → class_get_function (some k) i = none := by
    intro h
    simp only [class_get_function, class_get_num_functions] at *
    rw [if_neg (Nat.not_lt.2 h)]
  refine ⟨hgm, hgf, fun h => ?_⟩
  simp only [class_invoke_function, class_invoke_function_g]
  by_cases hgt : i > size_sub_one (class_get_num_functions (some k))
  · rw [if_pos hgt]
  · rw [if_neg hgt, hgf h]
    rfl

/-- witness for C5 at concrete inputs: the empty function table with a
large index, and an index equal to the member count. -/
theorem claim_C5_bounds_witness :
    class_get_member (some fix_empty_class) 5 = none
    ∧ class_get_function (some fix_empty_class) 5 = none
    ∧ class_invoke_function (some fix_empty_class) (some fix_class) 5 = (none, []) := by
  have h := claim_C5_bounds fix_empty_class 5 (some fix_class)
  exact ⟨h.1 (by decide), h.2.1 (by decide), h.2.2 (by decide)⟩

/-- C7 (counterexample): the claim says `append_member` fails only if
the class handle itself is invalid — yet with a perfectly valid class
handle and a null member the append fails (the table, and in particular
the count, is left exactly as before instead of growing by one). -/
theorem claim_C7_counterexample :
    class_add_member (some fix_class) none true = some fix_class
    ∧ class_get_num_members (class_add_member (some fix_class) none true) ≠
        class_get_num_members (some fix_class) + 1 := by
  exact ⟨rfl, by decide⟩

/-- C7 (amended): `append_member` / `append_function` fail if the class
handle is invalid, if the supplied element is invalid, or if the
allocation fails; when the handle or the element is invalid the table is
left unchanged; when the allocation fails the element count is left
unchanged but the table's storage pointer is overwritten with the null
`realloc` result. -/
theorem claim_C7_amended_append_failure (k : Class) (m : Member) (f : Function) (a : Bool) :
    class_add_member none (some m) a = none
    ∧ class_add_function none (some f) a = none
    ∧ class_add_member (some k) none a = some k
    ∧ class_add_function (some k) none a = some k
    ∧ class_add_member (some k) (some m) false = some { k with members := none }
    ∧ class_add_function (some k) (some f) false = some { k with functions := none } := by
  refine ⟨rfl, rfl, rfl, rfl, ?_, ?_⟩ <;>
    simp [class_add_member, class_add_function]

/-- C8 (counterexample): the claim says a name accessor called on a null
handle returns the empty name — but `member_get_name` on a null member
returns the null pointer, not the empty string. -/
theorem claim_C8_counterexample :
    member_get_name none = none ∧ member_get_name none ≠ some str_empty := by
  exact ⟨rfl, by simp [member_get_name]⟩

/-- C8 (amended): every read accessor called with a null handle returns
a null/none sentinel — the null pointer (not the empty name) for the
name accessors, zero for the count accessors, null/none for the element
and ctor/dtor accessors, and false for `has_constructor` /
`has_destructor`. -/
theorem claim_C8_amended_sentinels :
    member_get_name none = none
    ∧ class_get_name none = none
    ∧ function_get_name none = none
    ∧ class_get_num_members none = 0
    ∧ class_get_num_functions none = 0
    ∧ (∀ i, class_get_member none i = none)
    ∧ (∀ i, class_get_function none i = none)
    ∧ class_get_constructor none = none
    ∧ class_get_destructor none = none
    ∧ class_has_constructor none = false
    ∧ class_has_destructor none = false := by
  exact ⟨rfl, rfl, rfl, rfl, rfl, fun _ => rfl, fun _ => rfl, rfl, rfl, rfl, rfl⟩

/-- C10: `member_get_type` on a null member returns the
`MEMBER_TYPE_I32` tag, and a real signed-32-bit member yields exactly
the same tag, so the (total, never-failing) type accessor cannot signal
the null case to the caller through its result. -/
theorem claim_C10_null_member_type :
    member_get_type none = MemberType.MEMBER_TYPE_I32
    ∧ ∀ m : Member, m.type = MemberType.MEMBER_TYPE_I32 →
        member_get_type (some m) = member_get_type none := by
  refine ⟨rfl, fun m hm => ?_⟩
  simp [member_get_type, hm]

/-- witness for C10 at a concrete signed-32-bit member. -/
theorem claim_C10_null_member_type_witness :
    member_get_type (some fix_member2) = member_get_type none :=
  claim_C10_null_member_type.2 fix_member2 rfl

/-- growing a block to exactly the length of its current contents
preserves the contents. -/
theorem alloc_block_self {α : Type} (l : List α) (junk : α) :
    alloc_block l l.length junk = l := by
  simp [alloc_block]

/-- C2: append stability — appending a member to a valid class grows the
member count by exactly one, the new last index resolves to the appended
member, and every index below the old count still resolves to the
element it resolved to before; the same holds for `append_function` on
the function table.  (The `realloc` is the successful one, `allocOk =
true`; its failure behaviour is the subject of the append-failure
claim.) -/
theorem claim_C2_append_stability (k : Class) (l : List Member) (m : Member)
    (lf : List Function) (f : Function)
    (hm : k.members = some l) (hml : l.length = k.num_members)
    (hf : k.functions = some lf) (hfl : lf.length = k.num_functions) :
    (class_add_member (some k) (some m) true =
        some { k with members := some (l ++ [m]), num_members := k.num_members + 1 })
    ∧ class_get_num_members (class_add_member (some k) (some m) true) =
        class_get_num_members (some k) + 1
    ∧ class_get_member (class_add_member (some k) (some m) true)
        (class_get_num_members (class_add_member (some k) (some m) true) - 1) = some m
    ∧ (∀ i, i < class_get_num_members (some k) →
        class_get_member (class_add_member (some k) (some m) true) i =
          class_get_member (some k) i)
    ∧ (class_add_function (some k) (some f) true =
        some { k with functions := some (lf ++ [f]), num_functions := k.num_functions + 1 })
    ∧ class_get_num_functions (class_add_function (some k) (some f) true) =
        class_get_num_functions (some k) + 1
    ∧ class_get_function (class_add_function (some k) (some f) true)
        (class_get_num_functions (class_add_function (some k) (some f) true) - 1) = some f
    ∧ (∀ i, i < class_get_num_functions (some k) →
        class_get_function (class_add_function (some k) (some f) true) i =
          class_get_function (some k) i) := by
  have hblock : alloc_block l k.num_members junkMember = l := by
    rw [← hml]; exact alloc_block_self l junkMember
  have hblockf : alloc_block lf k.num_functions junkFunction = lf := by
    rw [← hfl]; exact alloc_block_self lf junkFunction
  have hadd : class_add_member (some k) (some m) true =
      some { k with members := some (l ++ [m]), num_members := k.num_members + 1 } := by
    simp [class_add_member, hm, hblock]
  have haddf : class_add_function (some k) (some f) true =
      some { k with functions := some (lf ++ [f]), num_functions := k.num_functions + 1 } := by
    simp [class_add_function, hf, hblockf]
  refine ⟨hadd, ?_, ?_, ?_, haddf, ?_, ?_, ?_⟩
  · rw [hadd]; simp [class_get_num_members]
  · rw [hadd]
    simp only [class_get_num_members, class_get_member, Nat.add_sub_cancel,
      Option.getD_some, Nat.lt_succ_self, if_pos]
    rw [← hml, List.getD_append_right _ _ _ _ (Nat.le_refl _)]
    simp [List.getD]
  · intro i hi
    simp only [class_get_num_members] at hi
    rw [hadd]
    simp only [class_get_member, class_get_num_members, hm, Option.getD_some]
    rw [if_pos (Nat.lt_succ_of_lt hi), if_pos hi,
      List.getD_append _ _ _ _ (hml ▸ hi)]
  · rw [haddf]; simp [class_get_num_functions]
  · rw [haddf]
    simp only [class_get_num_functions, class_get_function, Nat.add_sub_cancel,
      Option.getD_some, Nat.lt_succ_self, if_pos]
    rw [← hfl, List.getD_append_right _ _ _ _ (Nat.le_refl _)]
    simp [List.getD]
  · intro i hi
    simp only [class_get_num_functions] at hi
    rw [haddf]
    simp only [class_get_function, class_get_num_functions, hf, Option.getD_some]
    rw [if_pos (Nat.lt_succ_of_lt hi), if_pos hi,
      List.getD_append _ _ _ _ (hfl ▸ hi)]

/-- witness for C2 at a concrete one-member, one-function class. -/
theorem claim_C2_append_stability_witness :
    class_get_num_members (class_add_member (some fix_class) (some fix_member2) true) = 2
    ∧ class_get_member (class_add_member (some fix_class) (some fix_member2) true) 1 =
        some fix_member2
    ∧ class_get_member (class_add_member (some fix_class) (some fix_member2) true) 0 =
        class_get_member (some fix_class) 0
    ∧ class_get_num_functions (class_add_function (some fix_class) (some fix_ctor) true) = 2
    ∧ class_get_function (class_add_function (some fix_class) (some fix_ctor) true) 0 =
        class_get_function (some fix_class) 0 := by
  have h := claim_C2_append_stability fix_class [fix_member] fix_member2
    [fix_member_fn] fix_ctor rfl rfl rfl rfl
  refine ⟨?_, ?_, h.2.2.2.1 0 (by decide), ?_, h.2.2.2.2.2.2.2 0 (by decide)⟩
  · simpa using h.2.1
  · simpa using h.2.2.1
  · simpa using h.2.2.2.2.2.1

/-- C3: constructor-once — creating a class from a descriptor carrying a
constructor record dispatches that constructor exactly once (the whole
trace of `create` is that single unary call), synchronously during
`create`, with the newly created instance as its only argument, and with
the constructor's kind forced to `FUNCTION_TYPE_CONSTRUCTOR` before the
dispatch; the instance handed to the constructor is the very one
`create` then returns. -/
theorem claim_C3_constructor_once (ci : ClassCreateInfo) (f : Function) (u : UnaryFn)
    (hc : ci.ctor = some f) (hu : f.fn = some u) :
    class_create ci =
      (some { name := ci.name
              ctor := some { name := f.name,
                             type := FunctionType.FUNCTION_TYPE_CONSTRUCTOR,
                             fn := some u, binary_member_fn := none }
              dtor := ci.dtor.map built_dtor
              members := some (copy_members ci)
              num_members := ci.num_members
              functions := some (copy_functions ci)
              num_functions := ci.num_functions },
        [Event.callUnary
          { name := f.name, type := FunctionType.FUNCTION_TYPE_CONSTRUCTOR,
            fn := some u, binary_member_fn := none }
          { name := ci.name
            ctor := some { name := f.name,
                           type := FunctionType.FUNCTION_TYPE_CONSTRUCTOR,
                           fn := some u, binary_member_fn := none }
            dtor := ci.dtor.map built_dtor
            members := some (copy_members ci)
            num_members := ci.num_members
            functions := some (copy_functions ci)
            num_functions := ci.num_functions }]) := by
  simp [class_create, class_create_g, hc, class_has_constructor, built_ctor,
    junkFunction, function_invoke_g, unary_call, hu]

/-- witness for C3 at a concrete descriptor with a constructor and empty
tables. -/
theorem claim_C3_constructor_once_witness :
    class_create fix_create_info =
      (some fix_created, [Event.callUnary fix_forced_ctor fix_created]) := by
  have h := claim_C3_constructor_once fix_create_info
    { name := some str_ctor, type := junkFunction.type,
      fn := some UnaryFn.test_class_ctor, binary_member_fn := none }
    UnaryFn.test_class_ctor rfl rfl
  rw [h]
  simp [fix_created, fix_forced_ctor, fix_create_info, copy_members, copy_functions]

/-- C4: destructor-once and release order — destroying a class that
carries a destructor record dispatches it exactly once (the only call
event in the whole destroy trace), synchronously, with the instance as
argument and with its kind forced to `FUNCTION_TYPE_DESTRUCTOR`, and
only afterwards releases the member storage, the function storage and
the instance itself, in that order (the source frees a table's storage
only when its count is nonzero; the constructor slot, when present, is
freed before the destructor runs). -/
theorem claim_C4_destructor_once (k : Class) (d : Function) (g : UnaryFn)
    (hd : k.dtor = some d) (hg : d.fn = some g) :
    class_destroy (some k) =
      (if k.ctor.isSome then [Event.freeCtor] else [])
      ++ ([Event.callUnary { d with type := FunctionType.FUNCTION_TYPE_DESTRUCTOR }
            { k with dtor := some { d with type := FunctionType.FUNCTION_TYPE_DESTRUCTOR } },
          Event.freeDtor]
      ++ ((if 0 < k.num_members then [Event.freeMembers] else [])
      ++ ((if 0 < k.num_functions then [Event.freeFunctions] else [])
      ++ [Event.freeInstance]))) := by
  simp [class_destroy, class_destroy_g, class_has_constructor, class_has_destructor,
    hd, class_get_num_members, class_get_num_functions, function_invoke_g,
    unary_call, hg]

/-- witness for C4 at a concrete class with a destructor, one member and
one table function (its stored destructor already carries the
Destructor kind, so forcing the kind leaves it unchanged). -/
theorem claim_C4_destructor_once_witness :
    class_destroy (some fix_class) =
      [Event.callUnary fix_dtor fix_class, Event.freeDtor,
        Event.freeMembers, Event.freeFunctions, Event.freeInstance] := by
  have h := claim_C4_destructor_once fix_class fix_dtor UnaryFn.vec2_dtor rfl rfl
  rw [h]
  decide

/-- C6: creation copies by value — on any heap in which the descriptor's
member and function arrays are live blocks, `class_create` places its
copies at fresh addresses distinct from the descriptor's (no shared
ownership), the copies hold an element-wise value copy of the
descriptor's arrays as they stood at creation time, creation leaves the
descriptor's blocks untouched, any later store to (or release and reuse
of) a descriptor block leaves the class's blocks — hence everything the
class's accessors read — unchanged, and an append through the class
leaves the descriptor's blocks exactly as they were before creation. -/
theorem claim_C6_create_copies (h : Heap) (ci : HClassCreateInfo)
    (hm : ci.members < h.next) (hf : ci.functions < h.next) :
    (class_create_heap h ci).2.members ≠ ci.members
    ∧ (class_create_heap h ci).2.functions ≠ ci.functions
    ∧ (class_create_heap h ci).1.member_blocks (class_create_heap h ci).2.members =
        (List.range ci.num_members).map (fun i =>
          let other := (h.member_blocks ci.members).getD i junkMember
          ({ name := other.name, type := other.type, data := other.data } : Member))
    ∧ (class_create_heap h ci).1.function_blocks (class_create_heap h ci).2.functions =
        (List.range ci.num_functions).map (fun i =>
          let other := (h.function_blocks ci.functions).getD i junkFunction
          ({ fn := other.fn, binary_member_fn := other.binary_member_fn,
             name := other.name, type := other.type } : Function))
    ∧ (class_create_heap h ci).1.member_blocks ci.members = h.member_blocks ci.members
    ∧ (class_create_heap h ci).1.function_blocks ci.functions = h.function_blocks ci.functions
    ∧ (∀ l, (write_members (class_create_heap h ci).1 ci.members l).member_blocks
          (class_create_heap h ci).2.members =
        (class_create_heap h ci).1.member_blocks (class_create_heap h ci).2.members)
    ∧ (∀ l, (write_functions (class_create_heap h ci).1 ci.functions l).function_blocks
          (class_create_heap h ci).2.functions =
        (class_create_heap h ci).1.function_blocks (class_create_heap h ci).2.functions)
    ∧ (∀ m, (class_add_member_heap (class_create_heap h ci).1
          (class_create_heap h ci).2 m).1.member_blocks ci.members =
        h.member_blocks ci.members)
    ∧ (∀ f, (class_add_function_heap (class_create_heap h ci).1
          (class_create_heap h ci).2 f).1.function_blocks ci.functions =
        h.function_blocks ci.functions) := by
  have hne_m : ci.members ≠ h.next := Nat.ne_of_lt hm
  have hne_f : ci.functions ≠ h.next + 1 := Nat.ne_of_lt (Nat.lt_succ_of_lt hf)
  refine ⟨?_, ?_, ?_, ?_, ?_, ?_, fun l => ?_, fun l => ?_, fun m => ?_, fun f => ?_⟩
  · simpa [class_create_heap] using Ne.symm hne_m
  · simpa [class_create_heap] using Ne.symm hne_f
  · simp [class_create_heap, write_members, write_functions]
  · simp [class_create_heap, write_members, write_functions]
  · simp [class_create_heap, write_members, write_functions, hne_m]
  · simp [class_create_heap, write_members, write_functions, hne_f]
  · simp [class_create_heap, write_members, write_functions, Ne.symm hne_m]
  · simp [class_create_heap, write_members, write_functions, Ne.symm hne_f]
  · simp [class_create_heap, class_add_member_heap, write_members, write_functions,
      hne_m, Ne.symm hne_m]
  · simp [class_create_heap, class_add_function_heap, write_members, write_functions,
      hne_f, Ne.symm hne_f]

/-- witness for C6 at a concrete heap: the descriptor arrays live at
addresses 0 and 1, the class's copies land at the fresh addresses, a
store through the descriptor's member array leaves the class's copy
unreadably elsewhere and untouched, and an append through the class
leaves the descriptor's array as it was. -/
theorem claim_C6_create_copies_witness :
    (class_create_heap fix_heap fix_hinfo).2.members ≠ fix_hinfo.members
    ∧ (write_members (class_create_heap fix_heap fix_hinfo).1 fix_hinfo.members
          []).member_blocks (class_create_heap fix_heap fix_hinfo).2.members =
        (class_create_heap fix_heap fix_hinfo).1.member_blocks
          (class_create_heap fix_heap fix_hinfo).2.members
    ∧ (class_add_member_heap (class_create_heap fix_heap fix_hinfo).1
          (class_create_heap fix_heap fix_hinfo).2 fix_member2).1.member_blocks
        fix_hinfo.members = fix_heap.member_blocks fix_hinfo.members := by
  have h := claim_C6_create_copies fix_heap fix_hinfo (by decide) (by decide)
  exact ⟨h.1, h.2.2.2.2.2.2.1 [], h.2.2.2.2.2.2.2.2.1 fix_member2⟩

/-- C9: Scenario B — with `a = create_vec2(1, 3)` and
`b = create_vec2(2, 4)` (each carrying the binary `add` function in its
function table), invoking function index 0 on `a` with `b` as the other
instance yields a new instance `c` whose member data is
`c.members[0].data = 3.0` and `c.members[1].data = 7.0`, while the
member data of `a` and `b` still is `(1, 3)` and `(2, 4)` (the binary
callable builds a fresh instance and never writes through `a` or `b`,
which the embedding reflects by leaving them the unmodified values
below). -/
theorem claim_C9_scenario_b :
    test_vec2_c.1.map member_datas =
      some [MemberData.f_data 3, MemberData.f_data 7]
    ∧ test_vec2_a.map member_datas =
      some [MemberData.f_data 1, MemberData.f_data 3]
    ∧ test_vec2_b.map member_datas =
      some [MemberData.f_data 2, MemberData.f_data 4] := by
  have h12 : (1 : ℚ) + 2 = 3 := by norm_num
  have h34 : (3 : ℚ) + 4 = 7 := by norm_num
  refine ⟨?_, ?_, ?_⟩ <;>
    simp [test_vec2_c, test_vec2_a, test_vec2_b, class_invoke_function,
      class_invoke_function_g, create_vec2, create_vec2_g, class_create,
      class_create_g, copy_members, copy_functions, built_ctor, built_dtor,
      class_has_constructor, class_get_function, class_get_num_functions,
      class_get_num_members, function_invoke_g, evalBin, evalBin0, vec2_add_g,
      f32_at, member_datas, size_sub_one, unary_call, junkFunction, junkMember,
      List.getD, List.range_succ, h12, h34]

end CClass
